import Mathlib

/-!
Shallow embedding of the Financial Health Scoring and Scenario Simulation
Engine of `src/app.py`, over ℚ (exact rationals in place of Python floats;
`round(x, n)` is modelled as exact decimal round-half-to-even).

Embedded functions (names follow the source):
* `validate_financial_inputs` — app.py lines 991–1004
* `calculate_fhi`             — app.py lines 1006–1035
* `get_component_weights`     — app.py lines 1383–1392
* `explain_fhi`               — app.py lines 1403–1408
* `top_component_changes`     — app.py lines 1410–1415
* `scen`                      — app.py lines 2383–2392
* `handle_calculation_click`  — app.py lines 1761–1788 (numeric control flow)
-/

namespace Fynstra

/-- Round-half-to-even to the nearest integer, the semantics of Python's
built-in `round` (on exact decimal values). -/
def roundHalfEven (q : ℚ) : ℤ :=
  if q - ⌊q⌋ < 1/2 then ⌊q⌋
  else if 1/2 < q - ⌊q⌋ then ⌊q⌋ + 1
  else if ⌊q⌋ % 2 = 0 then ⌊q⌋ else ⌊q⌋ + 1

/-- Python `round(x, 2)` on exact values. -/
def round2 (x : ℚ) : ℚ := (roundHalfEven (x * 100) : ℚ) / 100

/-- Python `round(x, 1)` on exact values. -/
def round1 (x : ℚ) : ℚ := (roundHalfEven (x * 10) : ℚ) / 10

/-- The five component scores, in the insertion order of the `components`
dict built at app.py lines 1027–1033. -/
structure Components where
  netWorth : ℚ
  debtToIncome : ℚ
  savingsRate : ℚ
  investment : ℚ
  emergencyFund : ℚ
  deriving DecidableEq, Repr

/-- The `components` dict as an association list, in Python dict insertion
order (app.py lines 1027–1033). -/
def Components.items (c : Components) : List (String × ℚ) :=
  [("Net Worth", c.netWorth),
   ("Debt-to-Income", c.debtToIncome),
   ("Savings Rate", c.savingsRate),
   ("Investment", c.investment),
   ("Emergency Fund", c.emergencyFund)]

/-- app.py lines 991–1004: `validate_financial_inputs(income, expenses, debt,
savings)` returning `(errors, warnings)`. -/
def validate_financial_inputs (income expenses debt savings : ℚ) :
    List String × List String :=
  let errors : List String :=
    if debt > income then ["⚠️ Your monthly debt payments exceed your income"] else []
  let warnings : List String :=
    (if expenses > income then ["⚠️ Your monthly expenses exceed your income"] else [])
    ++ (if savings + expenses + debt > income * 1.1 then
          ["⚠️ Your total monthly obligations seem high relative to income"] else [])
  (errors, warnings)

/-- app.py lines 1008–1015: the age-bracket `(alpha, beta)` pair. -/
def alpha_beta (age : ℤ) : ℚ × ℚ :=
  if age < 30 then (2.5, 2.0)
  else if age < 40 then (3.0, 3.0)
  else if age < 50 then (3.5, 4.0)
  else (4.0, 5.0)

/-- app.py line 1019: `Nworth = min(max((net_worth / (annual_income * alpha)) * 100, 0), 100)
if annual_income > 0 else 0`, with `annual_income = monthly_income * 12`. -/
def Nworth (age : ℤ) (monthly_income net_worth : ℚ) : ℚ :=
  let alpha := (alpha_beta age).1
  let annual_income := monthly_income * 12
  if annual_income > 0 then min (max (net_worth / (annual_income * alpha) * 100) 0) 100 else 0

/-- app.py line 1020: `DTI = 100 - min((monthly_debt / monthly_income) * 100, 100)
if monthly_income > 0 else 0` (the conditional expression wraps the whole
subtraction, so a zero income yields 0). -/
def DTI (monthly_income monthly_debt : ℚ) : ℚ :=
  if monthly_income > 0 then 100 - min (monthly_debt / monthly_income * 100) 100 else 0

/-- app.py line 1021: `Srate = min((monthly_savings / monthly_income) * 100, 100)
if monthly_income > 0 else 0`. -/
def Srate (monthly_income monthly_savings : ℚ) : ℚ :=
  if monthly_income > 0 then min (monthly_savings / monthly_income * 100) 100 else 0

/-- app.py line 1022: `Invest = min(max((total_investments / (beta * annual_income)) * 100, 0), 100)
if annual_income > 0 else 0`. -/
def Invest (age : ℤ) (monthly_income total_investments : ℚ) : ℚ :=
  let beta := (alpha_beta age).2
  let annual_income := monthly_income * 12
  if annual_income > 0 then min (max (total_investments / (beta * annual_income) * 100) 0) 100 else 0

/-- app.py line 1023: `Emerg = min((emergency_fund / monthly_expenses) / 6 * 100, 100)
if monthly_expenses > 0 else 0`. -/
def Emerg (monthly_expenses emergency_fund : ℚ) : ℚ :=
  if monthly_expenses > 0 then min (emergency_fund / monthly_expenses / 6 * 100) 100 else 0

/-- app.py line 1025: the composite formula
`FHI = 0.20*Nworth + 0.15*DTI + 0.15*Srate + 0.15*Invest + 0.20*Emerg + 15`. -/
def fhi_formula (c : Components) : ℚ :=
  0.20 * c.netWorth + 0.15 * c.debtToIncome + 0.15 * c.savingsRate
    + 0.15 * c.investment + 0.20 * c.emergencyFund + 15

/-- app.py lines 1006–1035: `calculate_fhi`, returning `(FHI, components)`. -/
def calculate_fhi (age : ℤ)
    (monthly_income monthly_expenses monthly_savings monthly_debt
     total_investments net_worth emergency_fund : ℚ) : ℚ × Components :=
  let c : Components :=
    { netWorth := Nworth age monthly_income net_worth
      debtToIncome := DTI monthly_income monthly_debt
      savingsRate := Srate monthly_income monthly_savings
      investment := Invest age monthly_income total_investments
      emergencyFund := Emerg monthly_expenses emergency_fund }
  (fhi_formula c, c)

/-- app.py lines 1383–1392: `get_component_weights()`, the weight dict in
insertion order, base bump included under key `"_base"`. -/
def get_component_weights : List (String × ℚ) :=
  [("Net Worth", 0.20),
   ("Debt-to-Income", 0.15),
   ("Savings Rate", 0.15),
   ("Investment", 0.15),
   ("Emergency Fund", 0.20),
   ("_base", 15.0)]

/-- Python dict lookup `w[k]` on an association list (0 if absent; all
lookups performed by the source hit present keys). -/
def lookupW (w : List (String × ℚ)) (k : String) : ℚ :=
  (w.find? (fun p => p.1 == k)).elim 0 (fun p => p.2)

/-- app.py lines 1403–1408: `explain_fhi(components)` returning
`(contrib, total_weighted, base)`, with each contribution
`round(v * w[k], 2)` and `total_weighted = round(sum, 2)`. -/
def explain_fhi (c : Components) : List (String × ℚ) × ℚ × ℚ :=
  let w := get_component_weights
  let contrib := c.items.map (fun p => (p.1, round2 (p.2 * lookupW w p.1)))
  let total_weighted := round2 ((contrib.map (fun p => p.2)).sum)
  (contrib, total_weighted, lookupW w "_base")

/-- app.py lines 1410–1415: `top_component_changes(old, new, k)`.
`deltas = {name: round(new[name] - v, 1)}` over the old dict in insertion
order; movers with positive delta sorted descending (stably, as Python's
`sorted` with key `-delta`), negative delta sorted ascending, each cut to
`k`. The new dict is modelled as a lookup function. -/
def top_component_changes (old : List (String × ℚ)) (new : String → ℚ)
    (k : ℕ) : List (String × ℚ) × List (String × ℚ) :=
  let deltas := old.map (fun p => (p.1, round1 (new p.1 - p.2)))
  let sorted_up :=
    ((deltas.filter (fun x => 0 < x.2)).mergeSort (fun a b => b.2 ≤ a.2)).take k
  let sorted_down :=
    ((deltas.filter (fun x => x.2 < 0)).mergeSort (fun a b => a.2 ≤ b.2)).take k
  (sorted_up, sorted_down)

/-- The spec's worked `topMovers` example: baseline components. -/
def exampleOldComponents : List (String × ℚ) :=
  [("Net Worth", 40), ("Debt-to-Income", 60), ("Savings Rate", 50),
   ("Investment", 30), ("Emergency Fund", 20)]

/-- The spec's worked `topMovers` example: scenario components, as the
lookup function of the scenario dict. -/
def exampleNewComponents : String → ℚ := fun n =>
  if n = "Net Worth" then 45
  else if n = "Debt-to-Income" then 55
  else if n = "Savings Rate" then 50
  else if n = "Investment" then 20
  else 40

/-- Baseline components that expose the 1-decimal rounding of
`top_component_changes`: all zero. -/
def tinyOldComponents : List (String × ℚ) :=
  [("Net Worth", 0), ("Debt-to-Income", 0), ("Savings Rate", 0),
   ("Investment", 0), ("Emergency Fund", 0)]

/-- Scenario components whose only change is +0.04 on Net Worth, which
rounds to a 0.0 delta. -/
def tinyNewComponents : String → ℚ := fun n =>
  if n = "Net Worth" then 1/25 else 0

/-- Baseline components for a truncation-and-tie instance: all zero. -/
def tieOldComponents : List (String × ℚ) :=
  [("Net Worth", 0), ("Debt-to-Income", 0), ("Savings Rate", 0),
   ("Investment", 0), ("Emergency Fund", 0)]

/-- Scenario components giving three positive deltas — two of them tied at
+5 (Net Worth and Debt-to-Income) ahead of +3 (Emergency Fund) — so that
`k = 2` truncates and the tie is kept in enumeration order. -/
def tieNewComponents : String → ℚ := fun n =>
  if n = "Net Worth" then 5
  else if n = "Debt-to-Income" then 5
  else if n = "Emergency Fund" then 3
  else 0

/-- The baseline inputs dict built at app.py lines 2371–2380 (the `age` key
is carried alongside but never perturbed by `scen`). -/
structure Inputs where
  income : ℚ
  expenses : ℚ
  savings : ℚ
  debt : ℚ
  invest : ℚ
  efund : ℚ
  networth : ℚ
  deriving DecidableEq, Repr

/-- app.py lines 2383–2392: the scenario dict `scen`. Each slider field gets
`max(0.0, base * (1 + pct/100))`; savings and debt additionally take the
preset absolute deltas; net worth is kept as-is. -/
def scen (base : Inputs)
    (income_pct expenses_pct savings_pct debt_pct invest_pct efund_pct : ℚ)
    (savings_abs_delta debt_abs_delta : ℚ) : Inputs :=
  { income := max 0 (base.income * (1 + income_pct/100))
    expenses := max 0 (base.expenses * (1 + expenses_pct/100))
    savings := max 0 (base.savings * (1 + savings_pct/100) + savings_abs_delta)
    debt := max 0 (base.debt * (1 + debt_pct/100) + debt_abs_delta)
    invest := max 0 (base.invest * (1 + invest_pct/100))
    efund := max 0 (base.efund * (1 + efund_pct/100))
    networth := base.networth }

/-- app.py lines 1761–1788: the numeric control flow of
`handle_calculation_click`. Validation runs first; a non-empty error list
stops (`st.stop()`), then a zero income or zero expenses stops; only then is
`calculate_fhi` invoked. Session/state/logging side effects are outside the
numeric model; `none` models the handler stopping with no score computed. -/
def handle_calculation_click (age : ℤ)
    (monthly_income monthly_expenses monthly_savings monthly_debt
     total_investments net_worth emergency_fund : ℚ) : Option (ℚ × Components) :=
  let ew := validate_financial_inputs monthly_income monthly_expenses
      monthly_debt monthly_savings
  if ew.1 ≠ [] then none
  else if monthly_income = 0 ∨ monthly_expenses = 0 then none
  else some (calculate_fhi age monthly_income monthly_expenses monthly_savings
      monthly_debt total_investments net_worth emergency_fund)

/-! ### Rounding lemmas -/

theorem abs_roundHalfEven_sub_le (q : ℚ) : |(roundHalfEven q : ℚ) - q| ≤ 1/2 := by
  have h0 : (⌊q⌋ : ℚ) ≤ q := Int.floor_le q
  have h1 : q < ⌊q⌋ + 1 := Int.lt_floor_add_one q
  unfold roundHalfEven
  split_ifs with hl hg he <;> rw [abs_le] <;> constructor <;> push_cast <;> linarith

theorem roundHalfEven_intCast (n : ℤ) : roundHalfEven (n : ℚ) = n := by
  unfold roundHalfEven
  rw [Int.floor_intCast]
  norm_num

theorem abs_round2_sub_le (x : ℚ) : |round2 x - x| ≤ 1/200 := by
  have h := abs_roundHalfEven_sub_le (x * 100)
  have hx : round2 x - x = ((roundHalfEven (x * 100) : ℚ) - x * 100) / 100 := by
    unfold round2; ring
  rw [hx, abs_div]
  rw [div_le_iff₀ (by norm_num : (0:ℚ) < |100|)]
  calc |(roundHalfEven (x * 100) : ℚ) - x * 100| ≤ 1/2 := h
    _ ≤ 1/200 * |100| := by norm_num

theorem round2_int_div_100 (n : ℤ) : round2 ((n : ℚ) / 100) = (n : ℚ) / 100 := by
  unfold round2
  rw [div_mul_cancel₀ _ (by norm_num : (100:ℚ) ≠ 0), roundHalfEven_intCast]

/-! ### Component score bounds -/

theorem Nworth_bounds (age : ℤ) (monthly_income net_worth : ℚ) :
    0 ≤ Nworth age monthly_income net_worth ∧ Nworth age monthly_income net_worth ≤ 100 := by
  unfold Nworth
  dsimp only
  split_ifs
  · exact ⟨le_min (le_max_right _ _) (by norm_num), min_le_right _ _⟩
  · norm_num

theorem DTI_bounds (monthly_income monthly_debt : ℚ) (hd : 0 ≤ monthly_debt) :
    0 ≤ DTI monthly_income monthly_debt ∧ DTI monthly_income monthly_debt ≤ 100 := by
  unfold DTI
  split_ifs with hi
  · have ht : 0 ≤ monthly_debt / monthly_income * 100 :=
      mul_nonneg (div_nonneg hd hi.le) (by norm_num)
    have h₁ : min (monthly_debt / monthly_income * 100) 100 ≤ 100 := min_le_right _ _
    have h₂ : (0:ℚ) ≤ min (monthly_debt / monthly_income * 100) 100 :=
      le_min ht (by norm_num)
    constructor <;> linarith
  · norm_num

theorem Srate_bounds (monthly_income monthly_savings : ℚ) (hs : 0 ≤ monthly_savings) :
    0 ≤ Srate monthly_income monthly_savings ∧ Srate monthly_income monthly_savings ≤ 100 := by
  unfold Srate
  split_ifs with hi
  · have ht : 0 ≤ monthly_savings / monthly_income * 100 :=
      mul_nonneg (div_nonneg hs hi.le) (by norm_num)
    exact ⟨le_min ht (by norm_num), min_le_right _ _⟩
  · norm_num

theorem Invest_bounds (age : ℤ) (monthly_income total_investments : ℚ) :
    0 ≤ Invest age monthly_income total_investments ∧
      Invest age monthly_income total_investments ≤ 100 := by
  unfold Invest
  dsimp only
  split_ifs
  · exact ⟨le_min (le_max_right _ _) (by norm_num), min_le_right _ _⟩
  · norm_num

theorem Emerg_bounds (monthly_expenses emergency_fund : ℚ) (he : 0 ≤ emergency_fund) :
    0 ≤ Emerg monthly_expenses emergency_fund ∧ Emerg monthly_expenses emergency_fund ≤ 100 := by
  unfold Emerg
  split_ifs with hx
  · have ht : 0 ≤ emergency_fund / monthly_expenses / 6 * 100 :=
      mul_nonneg (div_nonneg (div_nonneg he hx.le) (by norm_num)) (by norm_num)
    exact ⟨le_min ht (by norm_num), min_le_right _ _⟩
  · norm_num

/-! ### Stable sorting lemmas

Python's `sorted` is a stable sort. Lean core's `List.mergeSort` is stable
as well, and `List.mergeSort_enum` relates it to sorting the position-tagged
list under `List.enumLE` — the comparison "key order, ties broken by
original position", which is antisymmetric on lists with distinct tags, so
its sorted permutation is unique. The lemmas below package that uniqueness:
`take k` of the stable sort is `take k` of *any* `enumLE`-sorted permutation
of the tagged list. -/

theorem desc_trans : ∀ (a b c : String × ℚ),
    decide (b.2 ≤ a.2) = true → decide (c.2 ≤ b.2) = true →
      decide (c.2 ≤ a.2) = true := by
  intro a b c h1 h2
  simp only [decide_eq_true_eq] at *
  exact le_trans h2 h1

theorem desc_total : ∀ (a b : String × ℚ),
    (decide (b.2 ≤ a.2) || decide (a.2 ≤ b.2)) = true := by
  intro a b
  simp only [Bool.or_eq_true, decide_eq_true_eq]
  exact le_total b.2 a.2

theorem asc_trans : ∀ (a b c : String × ℚ),
    decide (a.2 ≤ b.2) = true → decide (b.2 ≤ c.2) = true →
      decide (a.2 ≤ c.2) = true := by
  intro a b c h1 h2
  simp only [decide_eq_true_eq] at *
  exact le_trans h1 h2

theorem asc_total : ∀ (a b : String × ℚ),
    (decide (a.2 ≤ b.2) || decide (b.2 ≤ a.2)) = true := by
  intro a b
  simp only [Bool.or_eq_true, decide_eq_true_eq]
  exact le_total a.2 b.2

/-- Two `enumLE`-sorted lists that are permutations of each other are equal
when the position tags are distinct: `enumLE` is antisymmetric there. -/
theorem eq_of_perm_of_pairwise_enumLE {γ : Type} {le : γ → γ → Bool} :
    ∀ {l₁ l₂ : List (ℕ × γ)}, l₁.Perm l₂ →
      l₁.Pairwise (fun a b => List.enumLE le a b = true) →
      l₂.Pairwise (fun a b => List.enumLE le a b = true) →
      (l₁.map Prod.fst).Nodup → l₁ = l₂ := by
  intro l₁
  induction l₁ with
  | nil =>
    intro l₂ hp _ _ _
    exact (List.Perm.eq_nil hp.symm).symm
  | cons a t ih =>
    intro l₂ hp hs₁ hs₂ hnd
    cases l₂ with
    | nil => exact absurd (List.Perm.eq_nil hp) (by simp)
    | cons b t₂ =>
      have hab : a = b := by
        by_contra hne
        have ha2 : a ∈ t₂ := by
          rcases List.mem_cons.mp (hp.subset (List.mem_cons_self a t)) with h | h
          · exact absurd h hne
          · exact h
        have hb1 : b ∈ t := by
          rcases List.mem_cons.mp (hp.symm.subset (List.mem_cons_self b t₂)) with h | h
          · exact absurd h.symm hne
          · exact h
        have h1 : List.enumLE le a b = true := List.rel_of_pairwise_cons hs₁ hb1
        have h2 : List.enumLE le b a = true := List.rel_of_pairwise_cons hs₂ ha2
        have hfst : a.1 = b.1 := by
          simp only [List.enumLE] at h1 h2
          split_ifs at h1 h2 <;> simp_all
          omega
        have hnotin : a.1 ∉ t.map Prod.fst := (List.nodup_cons.mp (by simpa using hnd)).1
        exact hnotin (hfst ▸ List.mem_map_of_mem Prod.fst hb1)
      subst hab
      have htl : t = t₂ := ih hp.cons_inv (List.pairwise_cons.mp hs₁).2
        (List.pairwise_cons.mp hs₂).2 (List.nodup_cons.mp (by simpa using hnd)).2
      rw [htl]

/-- `take k` of a stable sort is `take k` of any `enumLE`-sorted permutation
of the position-tagged input. -/
theorem take_mergeSort_eq_of_sorted_enum {γ : Type} {le : γ → γ → Bool}
    (trans : ∀ a b c, le a b = true → le b c = true → le a c = true)
    (total : ∀ a b, (le a b || le b a) = true)
    (l : List γ) (k : ℕ) (s : List (ℕ × γ))
    (hperm : s.Perm l.enum)
    (hsort : s.Pairwise (fun a b => List.enumLE le a b = true)) :
    (l.mergeSort le).take k = (s.map (fun p => p.2)).take k := by
  have hms : s = l.enum.mergeSort (List.enumLE le) := by
    apply eq_of_perm_of_pairwise_enumLE
    · exact hperm.trans (List.mergeSort_perm _ _).symm
    · exact hsort
    · exact List.sorted_mergeSort (List.enumLE_trans trans) (List.enumLE_total total) _
    · have h1 : (l.enum.map Prod.fst) = List.range l.length := List.enum_map_fst l
      have h2 : (s.map Prod.fst).Perm (l.enum.map Prod.fst) := hperm.map _
      exact h2.nodup_iff.mpr (h1 ▸ List.nodup_range l.length)
  rw [hms]
  rw [show (l.enum.mergeSort (List.enumLE le)).map (fun p => p.2) = l.mergeSort le from
    List.mergeSort_enum]

/-! ### Claim theorems -/

/-- C1 (counterexample): at `monthlyIncome = 0` and `monthlyDebtPayment = 0`
the claim demands a DebtToIncome component of 100, but `calculate_fhi`
returns 0: the `else 0` of the conditional expression at app.py line 1020
covers the whole subtraction. -/
theorem dti_zero_income_counterexample :
    (calculate_fhi 25 0 1 0 0 0 0 0).2.debtToIncome = 0 ∧
      (calculate_fhi 25 0 1 0 0 0 0 0).2.debtToIncome ≠ 100 := by
  norm_num [calculate_fhi, DTI]

/-- C1 (amended): for every profile with `monthlyIncome = 0`, the
DebtToIncome component returned by `calculate_fhi` equals 0 regardless of
`monthlyDebtPayment`, and the income-based components NetWorth,
SavingsRate and Investment are 0 as well. -/
theorem zero_income_components (age : ℤ)
    (expenses savings debt invest networth efund : ℚ) :
    (calculate_fhi age 0 expenses savings debt invest networth efund).2.debtToIncome = 0 ∧
    (calculate_fhi age 0 expenses savings debt invest networth efund).2.netWorth = 0 ∧
    (calculate_fhi age 0 expenses savings debt invest networth efund).2.savingsRate = 0 ∧
    (calculate_fhi age 0 expenses savings debt invest networth efund).2.investment = 0 := by
  norm_num [calculate_fhi, DTI, Nworth, Srate, Invest]

/-- C2 (counterexample): at `monthlyExpenses = 0` and `emergencyFund = 5 > 0`
the claim demands an EmergencyFund component of 100, but `calculate_fhi`
returns 0: the `else 0` at app.py line 1023 is unconditional on the fund. -/
theorem emerg_zero_expenses_counterexample :
    (calculate_fhi 25 100 0 0 0 0 0 5).2.emergencyFund = 0 ∧
      (calculate_fhi 25 100 0 0 0 0 0 5).2.emergencyFund ≠ 100 := by
  norm_num [calculate_fhi, Emerg]

/-- C2 (amended): for every profile with `monthlyExpenses = 0`, the
EmergencyFund component is total (the division is behind the
`monthly_expenses > 0` guard) and equals 0, regardless of `emergencyFund`. -/
theorem zero_expenses_emergency_component (age : ℤ)
    (income savings debt invest networth efund : ℚ) :
    (calculate_fhi age income 0 savings debt invest networth efund).2.emergencyFund = 0 := by
  norm_num [calculate_fhi, Emerg]

/-- C3: for every valid profile (non-negative monetary fields, integer age
in [18,100]) each of the five component scores of `calculate_fhi` lies in
[0,100]; the composite score equals the weighted formula with base offset
15 (no additional clamping) and lies in [15,100]. -/
theorem fhi_range_invariant (age : ℤ)
    (income expenses savings debt invest networth efund : ℚ)
    (hage₁ : 18 ≤ age) (hage₂ : age ≤ 100)
    (hinc : 0 ≤ income) (hexp : 0 ≤ expenses) (hsav : 0 ≤ savings)
    (hdebt : 0 ≤ debt) (hinv : 0 ≤ invest) (hnw : 0 ≤ networth) (hef : 0 ≤ efund) :
    (0 ≤ (calculate_fhi age income expenses savings debt invest networth efund).2.netWorth ∧
      (calculate_fhi age income expenses savings debt invest networth efund).2.netWorth ≤ 100) ∧
    (0 ≤ (calculate_fhi age income expenses savings debt invest networth efund).2.debtToIncome ∧
      (calculate_fhi age income expenses savings debt invest networth efund).2.debtToIncome ≤ 100) ∧
    (0 ≤ (calculate_fhi age income expenses savings debt invest networth efund).2.savingsRate ∧
      (calculate_fhi age income expenses savings debt invest networth efund).2.savingsRate ≤ 100) ∧
    (0 ≤ (calculate_fhi age income expenses savings debt invest networth efund).2.investment ∧
      (calculate_fhi age income expenses savings debt invest networth efund).2.investment ≤ 100) ∧
    (0 ≤ (calculate_fhi age income expenses savings debt invest networth efund).2.emergencyFund ∧
      (calculate_fhi age income expenses savings debt invest networth efund).2.emergencyFund ≤ 100) ∧
    (calculate_fhi age income expenses savings debt invest networth efund).1 =
      fhi_formula (calculate_fhi age income expenses savings debt invest networth efund).2 ∧
    (15 ≤ (calculate_fhi age income expenses savings debt invest networth efund).1 ∧
      (calculate_fhi age income expenses savings debt invest networth efund).1 ≤ 100) := by
  have hb := Nworth_bounds age income networth
  have hd := DTI_bounds income debt hdebt
  have hs := Srate_bounds income savings hsav
  have hi := Invest_bounds age income invest
  have he := Emerg_bounds expenses efund hef
  obtain ⟨hb1, hb2⟩ := hb
  obtain ⟨hd1, hd2⟩ := hd
  obtain ⟨hs1, hs2⟩ := hs
  obtain ⟨hi1, hi2⟩ := hi
  obtain ⟨he1, he2⟩ := he
  refine ⟨⟨hb1, hb2⟩, ⟨hd1, hd2⟩, ⟨hs1, hs2⟩, ⟨hi1, hi2⟩, ⟨he1, he2⟩, rfl, ?_, ?_⟩ <;>
    · unfold calculate_fhi fhi_formula
      dsimp only
      linarith

/-- C3 (witness): the range invariant instantiated at the fixed regression
profile. -/
theorem fhi_range_invariant_witness :
    15 ≤ (calculate_fhi 24 50000 30000 10000 5000 100000 200000 60000).1 ∧
      (calculate_fhi 24 50000 30000 10000 5000 100000 200000 60000).1 ≤ 100 :=
  (fhi_range_invariant 24 50000 30000 10000 5000 100000 200000 60000
    (by norm_num) (by norm_num) (by norm_num) (by norm_num) (by norm_num)
    (by norm_num) (by norm_num) (by norm_num) (by norm_num)).2.2.2.2.2.2

/-- C6: every adjustable field of the scenario dict equals
`max(0, baseline·(1 + pct/100) + absoluteDelta)` — percentage first, then
the absolute offset, with the offset present exactly for savings and debt —
and for a baseline with non-negative fields every field of the derived
scenario inputs is non-negative, even for a −100% or arbitrarily negative
delta. -/
theorem scen_formula_and_nonneg (base : Inputs)
    (income_pct expenses_pct savings_pct debt_pct invest_pct efund_pct : ℚ)
    (savings_abs_delta debt_abs_delta : ℚ)
    (h : 0 ≤ base.income ∧ 0 ≤ base.expenses ∧ 0 ≤ base.savings ∧ 0 ≤ base.debt ∧
         0 ≤ base.invest ∧ 0 ≤ base.efund ∧ 0 ≤ base.networth) :
    ((scen base income_pct expenses_pct savings_pct debt_pct invest_pct efund_pct
        savings_abs_delta debt_abs_delta).income =
        max 0 (base.income * (1 + income_pct/100)) ∧
      (scen base income_pct expenses_pct savings_pct debt_pct invest_pct efund_pct
        savings_abs_delta debt_abs_delta).expenses =
        max 0 (base.expenses * (1 + expenses_pct/100)) ∧
      (scen base income_pct expenses_pct savings_pct debt_pct invest_pct efund_pct
        savings_abs_delta debt_abs_delta).savings =
        max 0 (base.savings * (1 + savings_pct/100) + savings_abs_delta) ∧
      (scen base income_pct expenses_pct savings_pct debt_pct invest_pct efund_pct
        savings_abs_delta debt_abs_delta).debt =
        max 0 (base.debt * (1 + debt_pct/100) + debt_abs_delta) ∧
      (scen base income_pct expenses_pct savings_pct debt_pct invest_pct efund_pct
        savings_abs_delta debt_abs_delta).invest =
        max 0 (base.invest * (1 + invest_pct/100)) ∧
      (scen base income_pct expenses_pct savings_pct debt_pct invest_pct efund_pct
        savings_abs_delta debt_abs_delta).efund =
        max 0 (base.efund * (1 + efund_pct/100))) ∧
    (0 ≤ (scen base income_pct expenses_pct savings_pct debt_pct invest_pct efund_pct
        savings_abs_delta debt_abs_delta).income ∧
      0 ≤ (scen base income_pct expenses_pct savings_pct debt_pct invest_pct efund_pct
        savings_abs_delta debt_abs_delta).expenses ∧
      0 ≤ (scen base income_pct expenses_pct savings_pct debt_pct invest_pct efund_pct
        savings_abs_delta debt_abs_delta).savings ∧
      0 ≤ (scen base income_pct expenses_pct savings_pct debt_pct invest_pct efund_pct
        savings_abs_delta debt_abs_delta).debt ∧
      0 ≤ (scen base income_pct expenses_pct savings_pct debt_pct invest_pct efund_pct
        savings_abs_delta debt_abs_delta).invest ∧
      0 ≤ (scen base income_pct expenses_pct savings_pct debt_pct invest_pct efund_pct
        savings_abs_delta debt_abs_delta).efund ∧
      0 ≤ (scen base income_pct expenses_pct savings_pct debt_pct invest_pct efund_pct
        savings_abs_delta debt_abs_delta).networth) := by
  refine ⟨⟨rfl, rfl, rfl, rfl, rfl, rfl⟩,
    le_max_left 0 _, le_max_left 0 _, le_max_left 0 _, le_max_left 0 _,
    le_max_left 0 _, le_max_left 0 _, ?_⟩
  exact h.2.2.2.2.2.2

/-- C6 (witness): the scenario formula and non-negativity at a concrete
baseline with a −100% income delta and a large negative debt offset. -/
theorem scen_formula_and_nonneg_witness :
    ((scen ⟨50000, 30000, 10000, 5000, 100000, 60000, 200000⟩
        (-100) 0 0 0 0 0 0 (-1000000)).income =
      max 0 ((50000 : ℚ) * (1 + (-100)/100))) ∧
    0 ≤ (scen ⟨50000, 30000, 10000, 5000, 100000, 60000, 200000⟩
        (-100) 0 0 0 0 0 0 (-1000000)).debt := by
  have h := scen_formula_and_nonneg ⟨50000, 30000, 10000, 5000, 100000, 60000, 200000⟩
    (-100) 0 0 0 0 0 0 (-1000000) (by norm_num)
  exact ⟨h.1.1, h.2.2.2.2.1⟩

/-- C4 (counterexample): on the fixed regression profile the claim demands
an EmergencyFund component of 100, but `calculate_fhi` returns
`(60000/30000)/6·100 = 100/3 ≈ 33.33`. -/
theorem fixture_emergency_fund_counterexample :
    (calculate_fhi 24 50000 30000 10000 5000 100000 200000 60000).2.emergencyFund = 100/3 ∧
      (calculate_fhi 24 50000 30000 10000 5000 100000 200000 60000).2.emergencyFund ≠ 100 := by
  norm_num [calculate_fhi, Emerg]

/-- C4 (amended): the fixed profile {age 24, income 50000, expenses 30000,
savings 10000, debt 5000, investments 100000, netWorth 200000, emergencyFund
60000} yields DebtToIncome = 90, SavingsRate = 20, EmergencyFund = 100/3
(not 100), NetWorth = 40/3, Investment = 25/3, and composite score 505/12,
which equals the documented weighted formula applied to the components. -/
theorem fixture_profile_scores :
    calculate_fhi 24 50000 30000 10000 5000 100000 200000 60000 =
      (505/12, ⟨40/3, 90, 20, 25/3, 100/3⟩) ∧
    (505/12 : ℚ) = fhi_formula ⟨40/3, 90, 20, 25/3, 100/3⟩ := by
  constructor
  · norm_num [calculate_fhi, fhi_formula, Nworth, DTI, Srate, Invest, Emerg, alpha_beta,
      Prod.ext_iff, Components.mk.injEq]
  · norm_num [fhi_formula]

/-- C5: `validate_financial_inputs` returns a non-empty error list exactly
when debt exceeds income, emits the expense warning exactly when expenses
exceed income, and emits the obligations warning exactly when
savings + expenses + debt exceed income·1.1; it is a pure function of its
four arguments. -/
theorem validate_financial_inputs_spec (income expenses debt savings : ℚ) :
    ((validate_financial_inputs income expenses debt savings).1 ≠ [] ↔ debt > income) ∧
    ("⚠️ Your monthly expenses exceed your income" ∈
        (validate_financial_inputs income expenses debt savings).2 ↔ expenses > income) ∧
    ("⚠️ Your total monthly obligations seem high relative to income" ∈
        (validate_financial_inputs income expenses debt savings).2 ↔
      savings + expenses + debt > income * 1.1) := by
  unfold validate_financial_inputs
  dsimp only
  split_ifs <;> simp_all

/-- C8 (counterexample): `explain_fhi` rounds each contribution to two
decimals, so for a NetWorth component of 100/3 the reported contribution is
6.67, not the exact product 100/3 · 0.20 = 20/3 the claim demands. -/
theorem explain_contribution_rounding_counterexample :
    (explain_fhi ⟨100/3, 0, 0, 0, 0⟩).1 =
      [("Net Worth", 667/100), ("Debt-to-Income", 0), ("Savings Rate", 0),
       ("Investment", 0), ("Emergency Fund", 0)] ∧
    (667/100 : ℚ) ≠ (100/3) * 0.20 := by
  constructor
  · simp [explain_fhi, Components.items, get_component_weights, lookupW, List.find?]
    norm_num [round2, roundHalfEven]
  · norm_num

/-- C8 (amended): `explain_fhi` returns the five contributions as
`components[name] × weight[name]` rounded half-to-even to two decimals (the
base offset of 15 reported separately); `weightedTotal` equals the sum of
the five contributions exactly; and `weightedTotal` plus the base offset
reproduces the composite formula on the same components to within the
2-decimal rounding tolerance of 0.025 (= 5·0.005). The five scoring weights
sum to 0.85. -/
theorem explain_fhi_spec (c : Components) :
    (explain_fhi c).1 =
      [("Net Worth", round2 (c.netWorth * 0.20)),
       ("Debt-to-Income", round2 (c.debtToIncome * 0.15)),
       ("Savings Rate", round2 (c.savingsRate * 0.15)),
       ("Investment", round2 (c.investment * 0.15)),
       ("Emergency Fund", round2 (c.emergencyFund * 0.20))] ∧
    (explain_fhi c).2.2 = 15 ∧
    (explain_fhi c).2.1 = ((explain_fhi c).1.map (fun p => p.2)).sum ∧
    |(explain_fhi c).2.1 + (explain_fhi c).2.2 - fhi_formula c| ≤ 1/40 ∧
    ((get_component_weights.filter (fun p => p.1 != "_base")).map (fun p => p.2)).sum
      = 0.85 := by
  have h1 : (explain_fhi c).1 =
      [("Net Worth", round2 (c.netWorth * 0.20)),
       ("Debt-to-Income", round2 (c.debtToIncome * 0.15)),
       ("Savings Rate", round2 (c.savingsRate * 0.15)),
       ("Investment", round2 (c.investment * 0.15)),
       ("Emergency Fund", round2 (c.emergencyFund * 0.20))] := by
    simp [explain_fhi, Components.items, get_component_weights, lookupW, List.find?]
  have h2 : (explain_fhi c).2.2 = 15 := by
    simp [explain_fhi, get_component_weights, lookupW, List.find?]
    norm_num
  have hsum : ∀ x₁ x₂ x₃ x₄ x₅ : ℚ,
      round2 x₁ + (round2 x₂ + (round2 x₃ + (round2 x₄ + (round2 x₅ + 0)))) =
        ((roundHalfEven (x₁ * 100) + roundHalfEven (x₂ * 100) + roundHalfEven (x₃ * 100)
          + roundHalfEven (x₄ * 100) + roundHalfEven (x₅ * 100) : ℤ) : ℚ) / 100 := by
    intro x₁ x₂ x₃ x₄ x₅
    unfold round2
    push_cast
    ring
  have h3 : (explain_fhi c).2.1 = ((explain_fhi c).1.map (fun p => p.2)).sum := by
    show round2 _ = _
    simp only [explain_fhi, Components.items, List.map_cons, List.map_nil, List.sum_cons,
      List.sum_nil]
    rw [hsum, round2_int_div_100]
  have hv : (explain_fhi c).2.1 =
      round2 (c.netWorth * 0.20) + round2 (c.debtToIncome * 0.15)
        + round2 (c.savingsRate * 0.15) + round2 (c.investment * 0.15)
        + round2 (c.emergencyFund * 0.20) := by
    rw [h3, h1]
    simp [List.sum_cons]
    ring
  have ha1 := abs_round2_sub_le (c.netWorth * 0.20)
  have ha2 := abs_round2_sub_le (c.debtToIncome * 0.15)
  have ha3 := abs_round2_sub_le (c.savingsRate * 0.15)
  have ha4 := abs_round2_sub_le (c.investment * 0.15)
  have ha5 := abs_round2_sub_le (c.emergencyFund * 0.20)
  rw [abs_le] at ha1 ha2 ha3 ha4 ha5
  refine ⟨h1, h2, h3, ?_, ?_⟩
  · rw [hv, h2, abs_le]
    unfold fhi_formula
    constructor <;> nlinarith [ha1.1, ha1.2, ha2.1, ha2.2, ha3.1, ha3.2,
      ha4.1, ha4.2, ha5.1, ha5.2]
  · simp [get_component_weights]
    norm_num

/-- C9 (counterexample): `top_component_changes` classifies the movers by
the delta rounded to one decimal, not the exact delta: a Net Worth gain of
0.04 rounds to 0.0 and lands in neither list, although the exact
scenario − baseline delta is positive, so the improved list is not exactly
the components with positive exact delta. -/
theorem top_movers_unrounded_counterexample :
    top_component_changes tinyOldComponents tinyNewComponents 2 = ([], []) ∧
      0 < tinyNewComponents "Net Worth" - (0:ℚ) := by
  have hd : tinyOldComponents.map
      (fun q => (q.1, round1 (tinyNewComponents q.1 - q.2))) =
      [("Net Worth", 0), ("Debt-to-Income", 0), ("Savings Rate", 0),
       ("Investment", 0), ("Emergency Fund", 0)] := by
    simp [tinyOldComponents, tinyNewComponents]
    norm_num [round1, roundHalfEven]
  constructor
  · simp only [top_component_changes]
    rw [hd]
    norm_num [List.mergeSort]
  · norm_num [tinyNewComponents]

/-- C9 (amended): with deltas rounded to one decimal
(`delta = round(scenario[name] − baseline[name], 1)`), the improved list of
`top_component_changes` holds only positive-delta entries, sorted
descending; its length is exactly min(k, number of positive-delta entries)
(truncation to k); and it *equals* the k-prefix of any list that
descending-sorts the position-tagged positive deltas under `List.enumLE`
(delta descending, ties by ascending original position — precisely the
stable tie-break by the fixed enumeration order; such a sorted permutation
is unique since the tags are distinct). Dually for the declined list with
ascending deltas. Zero-delta entries appear in neither list. On the spec's
example (all deltas integral, rounding invisible) the result is improved
[(Emergency Fund, +20), (Net Worth, +5)], declined [(Investment, −10),
(Debt-to-Income, −5)] at k = 2; a further instance with three positive
deltas, two tied at +5, shows truncation to k = 2 keeping the tie in
enumeration order. -/
theorem top_movers_spec :
    (∀ (old : List (String × ℚ)) (new : String → ℚ) (k : ℕ),
      (∀ p ∈ (top_component_changes old new k).1,
        0 < p.2 ∧ p ∈ old.map (fun q => (q.1, round1 (new q.1 - q.2)))) ∧
      (∀ p ∈ (top_component_changes old new k).2,
        p.2 < 0 ∧ p ∈ old.map (fun q => (q.1, round1 (new q.1 - q.2)))) ∧
      (top_component_changes old new k).1.Pairwise (fun a b => b.2 ≤ a.2) ∧
      (top_component_changes old new k).2.Pairwise (fun a b => a.2 ≤ b.2) ∧
      (top_component_changes old new k).1.length =
        min k ((old.map (fun q => (q.1, round1 (new q.1 - q.2)))).filter
          (fun x => 0 < x.2)).length ∧
      (top_component_changes old new k).2.length =
        min k ((old.map (fun q => (q.1, round1 (new q.1 - q.2)))).filter
          (fun x => x.2 < 0)).length ∧
      (∀ s : List (ℕ × (String × ℚ)),
        s.Perm ((old.map (fun q => (q.1, round1 (new q.1 - q.2)))).filter
          (fun x => 0 < x.2)).enum →
        s.Pairwise (fun a b =>
          List.enumLE (fun x y => decide (y.2 ≤ x.2)) a b = true) →
        (top_component_changes old new k).1 = (s.map (fun p => p.2)).take k) ∧
      (∀ s : List (ℕ × (String × ℚ)),
        s.Perm ((old.map (fun q => (q.1, round1 (new q.1 - q.2)))).filter
          (fun x => x.2 < 0)).enum →
        s.Pairwise (fun a b =>
          List.enumLE (fun x y => decide (x.2 ≤ y.2)) a b = true) →
        (top_component_changes old new k).2 = (s.map (fun p => p.2)).take k) ∧
      (∀ p ∈ old.map (fun q => (q.1, round1 (new q.1 - q.2))), p.2 = 0 →
        p ∉ (top_component_changes old new k).1 ∧
          p ∉ (top_component_changes old new k).2)) ∧
    top_component_changes exampleOldComponents exampleNewComponents 2 =
      ([("Emergency Fund", 20), ("Net Worth", 5)],
       [("Investment", -10), ("Debt-to-Income", -5)]) ∧
    top_component_changes tieOldComponents tieNewComponents 2 =
      ([("Net Worth", 5), ("Debt-to-Income", 5)], []) := by
  refine ⟨?_, ?_, ?_⟩
  · intro old new k
    set deltas := old.map (fun q => (q.1, round1 (new q.1 - q.2))) with hdeltas
    have upPerm := List.mergeSort_perm (deltas.filter (fun x => 0 < x.2))
      (fun a b => b.2 ≤ a.2)
    have downPerm := List.mergeSort_perm (deltas.filter (fun x => x.2 < 0))
      (fun a b => a.2 ≤ b.2)
    have hup : ∀ p ∈ (top_component_changes old new k).1, 0 < p.2 ∧ p ∈ deltas := by
      intro p hp
      have hms : p ∈ (deltas.filter (fun x => 0 < x.2)).mergeSort
          (fun a b => b.2 ≤ a.2) := List.take_subset _ _ hp
      have hf : p ∈ deltas.filter (fun x => 0 < x.2) := upPerm.mem_iff.mp hms
      have := List.mem_filter.mp hf
      exact ⟨by simpa using this.2, this.1⟩
    have hdown : ∀ p ∈ (top_component_changes old new k).2, p.2 < 0 ∧ p ∈ deltas := by
      intro p hp
      have hms : p ∈ (deltas.filter (fun x => x.2 < 0)).mergeSort
          (fun a b => a.2 ≤ b.2) := List.take_subset _ _ hp
      have hf : p ∈ deltas.filter (fun x => x.2 < 0) := downPerm.mem_iff.mp hms
      have := List.mem_filter.mp hf
      exact ⟨by simpa using this.2, this.1⟩
    refine ⟨hup, hdown, ?_, ?_, ?_, ?_, ?_, ?_, ?_⟩
    · have hs := @List.sorted_mergeSort (String × ℚ)
        (fun a b => decide (b.2 ≤ a.2)) desc_trans desc_total
        (deltas.filter (fun x => 0 < x.2))
      exact (List.Pairwise.sublist (List.take_sublist _ _) hs).imp (by simp)
    · have hs := @List.sorted_mergeSort (String × ℚ)
        (fun a b => decide (a.2 ≤ b.2)) asc_trans asc_total
        (deltas.filter (fun x => x.2 < 0))
      exact (List.Pairwise.sublist (List.take_sublist _ _) hs).imp (by simp)
    · show (((deltas.filter (fun x => 0 < x.2)).mergeSort
          (fun a b => b.2 ≤ a.2)).take k).length = _
      rw [List.length_take, upPerm.length_eq]
    · show (((deltas.filter (fun x => x.2 < 0)).mergeSort
          (fun a b => a.2 ≤ b.2)).take k).length = _
      rw [List.length_take, downPerm.length_eq]
    · intro s hperm hsort
      show ((deltas.filter (fun x => 0 < x.2)).mergeSort
          (fun a b => b.2 ≤ a.2)).take k = (s.map (fun p => p.2)).take k
      exact take_mergeSort_eq_of_sorted_enum desc_trans desc_total _ k s hperm hsort
    · intro s hperm hsort
      show ((deltas.filter (fun x => x.2 < 0)).mergeSort
          (fun a b => a.2 ≤ b.2)).take k = (s.map (fun p => p.2)).take k
      exact take_mergeSort_eq_of_sorted_enum asc_trans asc_total _ k s hperm hsort
    · intro p _ hzero
      constructor
      · intro hmem
        have := (hup p hmem).1
        rw [hzero] at this
        exact lt_irrefl 0 this
      · intro hmem
        have := (hdown p hmem).1
        rw [hzero] at this
        exact lt_irrefl 0 this
  · have hd : exampleOldComponents.map
        (fun q => (q.1, round1 (exampleNewComponents q.1 - q.2))) =
        [("Net Worth", 5), ("Debt-to-Income", -5), ("Savings Rate", 0),
         ("Investment", -10), ("Emergency Fund", 20)] := by
      simp [exampleOldComponents, exampleNewComponents]
      norm_num [round1, roundHalfEven]
    simp only [top_component_changes]
    rw [hd]
    norm_num [List.mergeSort, List.merge]
  · have hd : tieOldComponents.map
        (fun q => (q.1, round1 (tieNewComponents q.1 - q.2))) =
        [("Net Worth", 5), ("Debt-to-Income", 5), ("Savings Rate", 0),
         ("Investment", 0), ("Emergency Fund", 3)] := by
      simp [tieOldComponents, tieNewComponents]
      norm_num [round1, roundHalfEven]
    simp only [top_component_changes]
    rw [hd]
    norm_num [List.mergeSort, List.merge]

/-- C9 (witness): the stable-sort characterization applied at the spec's
worked example, with the concrete sorted tagged list
[(1, (Emergency Fund, 20)), (0, (Net Worth, 5))]: its permutation and
sortedness hypotheses are discharged and the improved list equals its
untagged 2-prefix. -/
theorem top_movers_spec_witness :
    (top_component_changes exampleOldComponents exampleNewComponents 2).1 =
      (([((1:ℕ), ("Emergency Fund", (20:ℚ))), (0, ("Net Worth", 5))]).map
        (fun p => p.2)).take 2 := by
  have hd : exampleOldComponents.map
      (fun q => (q.1, round1 (exampleNewComponents q.1 - q.2))) =
      [("Net Worth", 5), ("Debt-to-Income", -5), ("Savings Rate", 0),
       ("Investment", -10), ("Emergency Fund", 20)] := by
    simp [exampleOldComponents, exampleNewComponents]
    norm_num [round1, roundHalfEven]
  apply ((top_movers_spec.1 exampleOldComponents exampleNewComponents
      2).2.2.2.2.2.2.1 _ ?_ ?_)
  · rw [hd]
    have he : (([("Net Worth", (5:ℚ)), ("Debt-to-Income", -5), ("Savings Rate", 0),
        ("Investment", -10), ("Emergency Fund", 20)]).filter
          (fun x => 0 < x.2)).enum =
        [((0:ℕ), ("Net Worth", (5:ℚ))), (1, ("Emergency Fund", 20))] := by
      norm_num [List.enum, List.enumFrom]
    rw [he]
    exact List.Perm.swap _ _ _
  · norm_num [List.pairwise_cons, List.enumLE]

/-- C10: through the calculation handler, a profile with zero monthly income
or zero monthly expenses stops before `calculate_fhi` runs: the handler
produces no score, so the scorers' zero-denominator fallbacks are
unreachable from this path. -/
theorem handle_calculation_click_zero_guard (age : ℤ)
    (monthly_income monthly_expenses monthly_savings monthly_debt
     total_investments net_worth emergency_fund : ℚ)
    (h : monthly_income = 0 ∨ monthly_expenses = 0) :
    handle_calculation_click age monthly_income monthly_expenses monthly_savings
      monthly_debt total_investments net_worth emergency_fund = none := by
  unfold handle_calculation_click
  rcases h with h | h <;> simp [h]

/-- C10 (witness): the zero-income profile is concretely refused. -/
theorem handle_calculation_click_zero_guard_witness :
    handle_calculation_click 30 0 100 0 0 0 0 0 = none :=
  handle_calculation_click_zero_guard 30 0 100 0 0 0 0 0 (Or.inl rfl)

end Fynstra
